import Mathlib

/-!
Verification of `solutions/api_response_checker/checker.py`.

Python strings are modelled as `List Char`; `json.loads` is modelled by an
executable recursive-descent parser (`json_loads`) covering JSON objects,
arrays, strings (with the standard escapes), integer numerals, booleans and
null; non-integer numerals are outside the model.  Python floating point is
modelled exactly: the binary64 values of the literals `0.3` and `0.7` and
correctly rounded (round-to-nearest, ties-to-even) multiplication and
addition on dyadic rationals (`Dy`), so the integer produced by
`int((structure_score * 0.3) + (quality.score * 0.7))` is computed exactly
as CPython computes it.  Python exceptions that can cross a function
boundary are modelled with `Except PyErr`; a `.error` value means the
Python function raises to its caller.
-/

/-- Python exceptions of `checker.py` that can cross a function boundary.
`keyError` carries the missing key, since `str` of a Python `KeyError`
shows the key. -/
inductive PyErr where
  | valueError (msg : List Char)
  | keyError (key : List Char)
  | attributeError
  | typeError
  | notImplementedError (msg : List Char)
  deriving DecidableEq

/-- JSON values as returned by `json.loads` (numeric literals are modelled
as integers; object entries keep insertion order, later duplicates win via
`lookupMem`). -/
inductive Json where
  | null
  | bool (b : Bool)
  | num (n : Int)
  | str (s : List Char)
  | arr (xs : List Json)
  | obj (kvs : List (List Char × Json))

/-- Member lookup in a parsed JSON object: the last binding of a key wins,
as in the Python dict that `json.loads` builds. -/
def lookupMem : List (List Char × Json) → List Char → Option Json
  | [], _ => none
  | (k, v) :: rest, key =>
    match lookupMem rest key with
    | some r => some r
    | none => if k = key then some v else none

/-- The opening-brace character, U+007B. -/
def lbrace : Char := Char.ofNat 123

/-- The closing-brace character, U+007D. -/
def rbrace : Char := Char.ofNat 125

/-- The single-quote character, U+0027. -/
def squote : Char := Char.ofNat 39

/-- ASCII whitespace as stripped by Python `str.strip()`. -/
def isPySpace (c : Char) : Bool :=
  c = ' ' || c = '\t' || c = '\n' || c = '\r' || c = '\x0b' || c = '\x0c'

/-- Python `str.lstrip()` on ASCII whitespace. -/
def lstrip (l : List Char) : List Char := l.dropWhile isPySpace

/-- Python `str.strip()` on ASCII whitespace. -/
def pyStrip (l : List Char) : List Char := lstrip ((lstrip l.reverse).reverse)

/-- Python `str.split` at newline: `s.split(chr 10)`. -/
def splitNl : List Char → List (List Char)
  | [] => [[]]
  | c :: cs =>
    if c = '\n' then [] :: splitNl cs
    else
      match splitNl cs with
      | [] => [[c]]
      | l :: ls => (c :: l) :: ls

/-- Python `(chr 10).join`. -/
def joinNl : List (List Char) → List Char
  | [] => []
  | [x] => x
  | x :: xs => x ++ '\n' :: joinNl xs

/-- Python `s.startswith` of a triple-backtick marker. -/
def startsTicks (l : List Char) : Bool := List.isPrefixOf (("```").toList) l

/-- JSON whitespace accepted between tokens by `json.loads`. -/
def isJsonWs (c : Char) : Bool := c = ' ' || c = '\t' || c = '\n' || c = '\r'

/-- Skip JSON whitespace. -/
def skipWs (l : List Char) : List Char := l.dropWhile isJsonWs

/-- Decimal digit test. -/
def isDigit (c : Char) : Bool := '0' ≤ c && c ≤ '9'

/-- Hexadecimal digit value, if any. -/
def hexVal (c : Char) : Option Nat :=
  if '0' ≤ c && c ≤ '9' then some (c.toNat - 48)
  else if 'a' ≤ c && c ≤ 'f' then some (c.toNat - 87)
  else if 'A' ≤ c && c ≤ 'F' then some (c.toNat - 55)
  else none

/-- Accumulate decimal digits into a natural number. -/
def digitsVal (ds : List Char) : Nat :=
  ds.foldl (fun acc c => acc * 10 + (c.toNat - 48)) 0

/-- Parse the body of a JSON string literal after the opening quote,
returning the decoded characters and the input after the closing quote.
Supports the standard escapes including `\uXXXX` (for Unicode scalar
values); rejects unescaped control characters, as `json.loads` does in
its default strict mode. -/
def parseStrBody : List Char → Option (List Char × List Char)
  | [] => none
  | c :: rest =>
    if c = '"' then some ([], rest)
    else if c = '\\' then
      match rest with
      | [] => none
      | e :: rest2 =>
        if e = '"' || e = '\\' || e = '/' then
          match parseStrBody rest2 with
          | none => none
          | some (s, r) => some (e :: s, r)
        else if e = 'b' then
          match parseStrBody rest2 with
          | none => none
          | some (s, r) => some ('\x08' :: s, r)
        else if e = 'f' then
          match parseStrBody rest2 with
          | none => none
          | some (s, r) => some ('\x0c' :: s, r)
        else if e = 'n' then
          match parseStrBody rest2 with
          | none => none
          | some (s, r) => some ('\n' :: s, r)
        else if e = 'r' then
          match parseStrBody rest2 with
          | none => none
          | some (s, r) => some ('\r' :: s, r)
        else if e = 't' then
          match parseStrBody rest2 with
          | none => none
          | some (s, r) => some ('\t' :: s, r)
        else if e = 'u' then
          match rest2 with
          | h1 :: h2 :: h3 :: h4 :: rest3 =>
            match hexVal h1, hexVal h2, hexVal h3, hexVal h4 with
            | some a, some b, some c3, some d =>
              let n := ((a * 16 + b) * 16 + c3) * 16 + d
              if _h : n.isValidChar then
                match parseStrBody rest3 with
                | none => none
                | some (s, r) => some (Char.ofNat n :: s, r)
              else none
            | _, _, _, _ => none
          | _ => none
        else none
    else if c.toNat < 32 then none
    else
      match parseStrBody rest with
      | none => none
      | some (s, r) => some (c :: s, r)

/-- Parse a JSON integer numeral (optional minus sign, no leading zeros,
as accepted by `json.loads`); fails on a fractional part or exponent,
which are outside the model. -/
def parseNum (l : List Char) : Option (Int × List Char) :=
  let core : List Char → Option (Nat × List Char) := fun cs =>
    match cs with
    | [] => none
    | c :: rest =>
      if c = '0' then
        match rest with
        | r :: _ => if isDigit r then none else some (0, rest)
        | [] => some (0, [])
      else if isDigit c then
        let ds := rest.takeWhile isDigit
        some (digitsVal (c :: ds), rest.drop ds.length)
      else none
  match l with
  | '-' :: rest =>
    match core rest with
    | none => none
    | some (n, r) =>
      match r with
      | c :: _ => if c = '.' || c = 'e' || c = 'E' then none else some (-(n : Int), r)
      | [] => some (-(n : Int), [])
  | _ =>
    match core l with
    | none => none
    | some (n, r) =>
      match r with
      | c :: _ => if c = '.' || c = 'e' || c = 'E' then none else some ((n : Int), r)
      | [] => some ((n : Int), [])

mutual

/-- Parse one JSON value (fuel-indexed recursive descent mirroring
`json.loads`); returns the value and the unconsumed input. -/
def parseVal : Nat → List Char → Option (Json × List Char)
  | 0, _ => none
  | fuel + 1, l =>
    match skipWs l with
    | [] => none
    | c :: rest =>
      if c = lbrace then
        match skipWs rest with
        | c2 :: rest2 =>
          if c2 = rbrace then some (.obj [], rest2)
          else parseObjItems fuel (skipWs rest)
        | [] => none
      else if c = '[' then
        match skipWs rest with
        | c2 :: rest2 =>
          if c2 = ']' then some (.arr [], rest2)
          else parseArrItems fuel (skipWs rest)
        | [] => none
      else if c = '"' then
        match parseStrBody rest with
        | none => none
        | some (s, r) => some (.str s, r)
      else if c = 't' then
        if List.isPrefixOf (("rue").toList) rest then some (.bool true, rest.drop 3) else none
      else if c = 'f' then
        if List.isPrefixOf (("alse").toList) rest then some (.bool false, rest.drop 4) else none
      else if c = 'n' then
        if List.isPrefixOf (("ull").toList) rest then some (.null, rest.drop 3) else none
      else
        match parseNum (c :: rest) with
        | none => none
        | some (n, r) => some (.num n, r)

/-- Parse the comma-separated members of a JSON object after its opening
brace (at least one member; keys must be string literals). -/
def parseObjItems : Nat → List Char → Option (Json × List Char)
  | 0, _ => none
  | fuel + 1, l =>
    match l with
    | '"' :: rest =>
      match parseStrBody rest with
      | none => none
      | some (k, r1) =>
        match skipWs r1 with
        | ':' :: r2 =>
          match parseVal fuel r2 with
          | none => none
          | some (v, r3) =>
            match skipWs r3 with
            | ',' :: r4 =>
              match parseObjItems fuel (skipWs r4) with
              | some (.obj kvs, r5) => some (.obj ((k, v) :: kvs), r5)
              | _ => none
            | c5 :: r5 =>
              if c5 = rbrace then some (.obj [(k, v)], r5) else none
            | [] => none
        | _ => none
    | _ => none

/-- Parse the comma-separated elements of a JSON array after its opening
bracket (at least one element). -/
def parseArrItems : Nat → List Char → Option (Json × List Char)
  | 0, _ => none
  | fuel + 1, l =>
    match parseVal fuel l with
    | none => none
    | some (v, r) =>
      match skipWs r with
      | ',' :: r2 =>
        match parseArrItems fuel r2 with
        | some (.arr xs, r3) => some (.arr (v :: xs), r3)
        | _ => none
      | ']' :: r2 => some (.arr [v], r2)
      | _ => none

end

/-- `json.loads`: parse a complete JSON document, requiring the whole
input to be consumed up to trailing whitespace; `none` models a raised
`json.JSONDecodeError`. -/
def json_loads (l : List Char) : Option Json :=
  match parseVal (l.length + 1) l with
  | none => none
  | some (v, rest) => if skipWs rest = [] then some v else none

/-- A finite IEEE-754 binary64 value, represented exactly as the dyadic
rational `m * 2 ^ e`. -/
structure Dy where
  m : Int
  e : Int
  deriving DecidableEq

/-- Number of binary digits of `n` (fuel-indexed, structurally
recursive so that it reduces in the kernel). -/
def bitLenAux : Nat → Nat → Nat
  | 0, _ => 0
  | fuel + 1, n => if n = 0 then 0 else bitLenAux fuel (n / 2) + 1

/-- Number of binary digits of `n`. -/
def bitLen (n : Nat) : Nat := bitLenAux (n + 1) n

/-- Round a positive significand to at most 53 bits, round-to-nearest
with ties to even, returning the rounded significand and the number of
bits shifted away. -/
def roundSig (n : Nat) : Nat × Nat :=
  let k := bitLen n
  if k ≤ 53 then (n, 0)
  else
    let s := k - 53
    let d := 2 ^ s
    let q := n / d
    let r := n % d
    let h := d / 2
    let q2 :=
      if h < r then q + 1
      else if r < h then q
      else if q % 2 = 0 then q else q + 1
    (q2, s)

/-- Round a dyadic rational to the nearest binary64 value (ties to even).
Inputs stay far from binary64 overflow and underflow in this
development, so exponent range is not modelled. -/
def round53 (x : Dy) : Dy :=
  if x.m = 0 then ⟨0, 0⟩
  else
    let p := roundSig x.m.natAbs
    ⟨if x.m < 0 then -(p.1 : Int) else (p.1 : Int), x.e + (p.2 : Int)⟩

/-- Binary64 conversion of a Python int, as in `float(n)`. -/
def intToDy (n : Int) : Dy := round53 ⟨n, 0⟩

/-- Binary64 multiplication: exact product, then one correct rounding. -/
def dyMul (x y : Dy) : Dy := round53 ⟨x.m * y.m, x.e + y.e⟩

/-- Binary64 addition: exact sum, then one correct rounding. -/
def dyAdd (x y : Dy) : Dy :=
  if x.e ≤ y.e then round53 ⟨x.m + y.m * 2 ^ (y.e - x.e).toNat, x.e⟩
  else round53 ⟨x.m * 2 ^ (x.e - y.e).toNat + y.m, y.e⟩

/-- Python `int()` applied to a float: truncation toward zero. -/
def dyTruncInt (x : Dy) : Int :=
  if 0 ≤ x.e then x.m * 2 ^ x.e.toNat else Int.tdiv x.m (2 ^ (-x.e).toNat)

/-- The binary64 value of the source literal `0.3`. -/
def d03 : Dy := ⟨5404319552844595, -54⟩

/-- The binary64 value of the source literal `0.7`. -/
def d07 : Dy := ⟨3152519739159347, -52⟩

/-- The arithmetic of `_calculate_overall_score` on integer inputs:
`int((structure_score * 0.3) + (score * 0.7))` in CPython binary64
arithmetic. -/
def overallFloat (structure_score : Int) (score : Int) : Int :=
  dyTruncInt (dyAdd (dyMul (intToDy structure_score) d03) (dyMul (intToDy score) d07))

/-- `ValidationResult` of `checker.py`. -/
structure ValidationResult where
  is_valid : Bool
  errors : List (List Char)
  warnings : List (List Char)

/-- `QualityIssue` of `checker.py`.  The dataclass annotates the fields
as strings, but CPython does not enforce annotations, so each field holds
whatever JSON value the parsed backend reply supplied. -/
structure QualityIssue where
  severity : Json
  description : Json
  field : Json

/-- `QualityAssessment` of `checker.py`.  `score`, `explanation` and
`recommendations` are unvalidated values taken from the parsed backend
reply (`issues` is always a real list, built by the comprehension in
`_parse_assessment`). -/
structure QualityAssessment where
  score : Json
  issues : List QualityIssue
  explanation : Json
  recommendations : Json

/-- `QualityReport` of `checker.py`. -/
structure QualityReport where
  validation : ValidationResult
  quality : QualityAssessment
  overall_score : Int

/-- `validate_structure`.  The wrapped `jsonschema.validate` call is an
external collaborator; its outcome is abstracted as `none` (no violation)
or `some msg` (it raised its first `ValidationError`, with message
`msg`). -/
def validate_structure (outcome : Option (List Char)) : ValidationResult :=
  match outcome with
  | some msg => ⟨false, [("Schema validation failed: ").toList ++ msg], []⟩
  | none => ⟨true, [], []⟩

/-- One issue entry of the comprehension in `_parse_assessment`:
`issue` must be a dict (anything else raises `TypeError` when subscripted
with a string); a missing `severity` or `description` key raises
`KeyError`; `field` defaults to `None` via `.get`. -/
def parseIssue (j : Json) : Except PyErr QualityIssue :=
  match j with
  | .obj kvs =>
    match lookupMem kvs (("severity").toList) with
    | none => .error (.keyError (("severity").toList))
    | some sev =>
      match lookupMem kvs (("description").toList) with
      | none => .error (.keyError (("description").toList))
      | some desc => .ok ⟨sev, desc, (lookupMem kvs (("field").toList)).getD .null⟩
  | _ => .error .typeError

/-- The issue comprehension applied to the elements of a JSON array. -/
def parseIssueList : List Json → Except PyErr (List QualityIssue)
  | [] => .ok []
  | j :: js =>
    match parseIssue j with
    | .error e => .error e
    | .ok i =>
      match parseIssueList js with
      | .error e => .error e
      | .ok l => .ok (i :: l)

/-- The issue comprehension `[... for issue in data.get('issues', [])]`.
Iterating a non-list raises `TypeError` on the first element (an empty
dict or empty string iterates to nothing, hence an empty issue list). -/
def parseIssues : Json → Except PyErr (List QualityIssue)
  | .arr xs => parseIssueList xs
  | .obj [] => .ok []
  | .str [] => .ok []
  | _ => .error .typeError

/-- The body of the `try` in `_parse_assessment` after `json.loads`
succeeded: `data.get` raises `AttributeError` unless `data` is a dict;
the issues comprehension runs first, then `data['score']` and
`data['explanation']` are read (raising `KeyError` when missing) and
`recommendations` defaults to the empty list. -/
def assessFromJson (data : Json) : Except PyErr QualityAssessment :=
  match data with
  | .obj kvs =>
    match parseIssues ((lookupMem kvs (("issues").toList)).getD (.arr [])) with
    | .error e => .error e
    | .ok issues =>
      match lookupMem kvs (("score").toList) with
      | none => .error (.keyError (("score").toList))
      | some score =>
        match lookupMem kvs (("explanation").toList) with
        | none => .error (.keyError (("explanation").toList))
        | some explanation =>
          .ok ⟨score, issues, explanation, (lookupMem kvs (("recommendations").toList)).getD (.arr [])⟩
  | _ => .error .attributeError

/-- `str(e)` of a Python `KeyError` shows the missing key in single
quotes. -/
def keyErrStr (k : List Char) : List Char := squote :: (k ++ [squote])

/-- Schematic detail text standing for the position-dependent message of
a raised `json.JSONDecodeError`. -/
def jsonDecodeDetail : List Char := ("Expecting value").toList

/-- The parse-failure fallback assessment of `_parse_assessment`. -/
def fallback50 (detail : List Char) : QualityAssessment :=
  ⟨.num 50,
   [⟨.str (("warning").toList),
     .str ((("Could not parse assessment: ").toList) ++ detail), .null⟩],
   .str (("Assessment completed but response format was unexpected").toList),
   .arr [.str (("Review raw assessment output").toList)]⟩

/-- The preprocessing of `_parse_assessment`: strip surrounding
whitespace, then, when the text starts with a triple-backtick marker,
drop its first and last lines and rejoin. -/
def preprocess (text : List Char) : List Char :=
  if startsTicks (pyStrip text) then
    joinNl (((splitNl (pyStrip text)).drop 1).dropLast)
  else pyStrip text

/-- The parse stage of `_parse_assessment` on the preprocessed text:
a `json.loads` failure or a `KeyError` is caught and becomes the
score-50 fallback; any other exception propagates. -/
def parseStage (t : List Char) : Except PyErr QualityAssessment :=
  match json_loads t with
  | none => .ok (fallback50 jsonDecodeDetail)
  | some data =>
    match assessFromJson data with
    | .ok qa => .ok qa
    | .error (.keyError k) => .ok (fallback50 (keyErrStr k))
    | .error e => .error e

/-- `_parse_assessment`. -/
def parse_assessment (text : List Char) : Except PyErr QualityAssessment :=
  parseStage (preprocess text)

/-- Rendering `str(e)` for exceptions caught by the blanket handler of
`assess_quality` (the `AttributeError` and `TypeError` texts are
schematic). -/
def pyErrStr : PyErr → List Char
  | .valueError m => m
  | .keyError k => keyErrStr k
  | .attributeError => ("object has no attribute get").toList
  | .typeError => ("unsupported operand type").toList
  | .notImplementedError m => m

/-- The backend-failure fallback assessment of `assess_quality`. -/
def fallback0 (errmsg : List Char) : QualityAssessment :=
  ⟨.num 0,
   [⟨.str (("critical").toList),
     .str ((("Assessment failed: ").toList) ++ errmsg), .null⟩],
   .str (("Unable to complete quality assessment").toList),
   .arr [.str (("Verify API connectivity and try again").toList)]⟩

/-- `assess_quality`.  The external backend is abstracted as an oracle
from call index to outcome: `.error e` means `client.messages.create`
raised with message `e`, `.ok reply` means it returned `reply` as the
text content.  The second component counts the backend calls made; the
source performs exactly one, with no retry.  The `try` block spans both
the backend call and `_parse_assessment`, and `except Exception` catches
everything, so this function is total. -/
def assess_quality (backend : Nat → Except (List Char) (List Char)) :
    QualityAssessment × Nat :=
  match backend 0 with
  | .error e => (fallback0 e, 1)
  | .ok reply =>
    match parse_assessment reply with
    | .ok qa => (qa, 1)
    | .error e => (fallback0 (pyErrStr e), 1)

/-- Conversion of `quality.score` for the multiplication
`quality.score * 0.7`: ints and bools multiply with a float, anything
else raises `TypeError`. -/
def scoreToDy : Json → Except PyErr Dy
  | .num n => .ok (intToDy n)
  | .bool b => .ok (intToDy (if b then 1 else 0))
  | _ => .error .typeError

/-- `_calculate_overall_score`. -/
def calculate_overall_score (validation : ValidationResult)
    (quality : QualityAssessment) : Except PyErr Int :=
  let structure_score : Int := if validation.is_valid then 100 else 0
  match scoreToDy quality.score with
  | .error e => .error e
  | .ok q => .ok (dyTruncInt (dyAdd (dyMul (intToDy structure_score) d03) (dyMul q d07)))

/-- The synthesized assessment of `check_response` when structure
validation failed. -/
def invalidStructureFallback : QualityAssessment :=
  ⟨.num 0,
   [⟨.str (("critical").toList), .str (("Structure validation failed").toList), .null⟩],
   .str (("Response does not meet basic structure requirements").toList),
   .arr [.str (("Fix schema validation errors before quality assessment").toList)]⟩

/-- `check_response`.  Inputs are the structure-validation outcome (see
`validate_structure`) and the backend oracle (see `assess_quality`); the
second component of the result counts backend calls. -/
def check_response (outcome : Option (List Char))
    (backend : Nat → Except (List Char) (List Char)) :
    Except PyErr (QualityReport × Nat) :=
  let validation := validate_structure outcome
  let qc : QualityAssessment × Nat :=
    if validation.is_valid then assess_quality backend
    else (invalidStructureFallback, 0)
  match calculate_overall_score validation qc.1 with
  | .error e => .error e
  | .ok overall => .ok (⟨validation, qc.1, overall⟩, qc.2)

/-- `check_consistency`: unconditionally raises `NotImplementedError`. -/
def check_consistency (responses : List Json) (schema : Json) :
    Except PyErr QualityAssessment :=
  .error (.notImplementedError (("Batch consistency checking coming soon").toList))

/-- The constructed `ResponseQualityChecker` state. -/
structure Checker where
  api_key : List Char
  model : List Char

/-- `ResponseQualityChecker.__init__`.  `api_key` is the optional
constructor argument, `env_key` the optional `ANTHROPIC_API_KEY`
environment value; `api_key or os.getenv(...)` falls through on `None`
or the empty (falsy) string, and a missing or empty effective key raises
`ValueError` before any client is built. -/
def checker_init (api_key env_key : Option (List Char)) : Except PyErr Checker :=
  let key : Option (List Char) :=
    match api_key with
    | some k => if k = [] then env_key else some k
    | none => env_key
  match key with
  | some k =>
    if k = [] then
      .error (.valueError (("ANTHROPIC_API_KEY must be set in environment or passed to constructor").toList))
    else .ok ⟨k, ("claude-sonnet-4-20250514").toList⟩
  | none =>
    .error (.valueError (("ANTHROPIC_API_KEY must be set in environment or passed to constructor").toList))

/-- The overall-score formula as the specification states it: the floor
of the exact real number `0.3 * structure + 0.7 * score`, with
`structure = 100` when `is_valid` and `0` otherwise. -/
def overall_score_spec (is_valid : Bool) (score : Int) : Int :=
  Int.fdiv (3 * (if is_valid then 100 else 0) + 7 * score) 10

/-- The backtick character, U+0060. -/
def btick : Char := Char.ofNat 96

set_option maxRecDepth 100000 in
set_option maxHeartbeats 1000000 in
/-- On the declared score range, the source's binary64 arithmetic agrees
with the exact floor formula except at `structure_score = 0`,
`score = 90`, where `90 * 0.7` rounds to just below `63`. -/
lemma overallFloat_eq_on_range : ∀ n : Nat, n < 101 → ∀ b : Bool,
    overallFloat (if b then 100 else 0) (n : Int) =
      if b = false ∧ n = 90 then 62
      else Int.fdiv ((if b then 300 else 0) + 7 * (n : Int)) 10 := by
  decide

set_option maxRecDepth 100000 in
set_option maxHeartbeats 1000000 in
/-- On the declared score range the computed overall score stays within
`[0, 100]`. -/
lemma overallFloat_mem_range : ∀ n : Nat, n < 101 → ∀ b : Bool,
    0 ≤ overallFloat (if b then 100 else 0) (n : Int) ∧
      overallFloat (if b then 100 else 0) (n : Int) ≤ 100 := by
  decide

/-- The spec formula, rewritten with the structure component folded in. -/
lemma overall_score_spec_eq (b : Bool) (n : Int) :
    overall_score_spec b n = Int.fdiv ((if b then 300 else 0) + 7 * n) 10 := by
  cases b <;> simp [overall_score_spec]

/-- `calculate_overall_score` on a numeric score reduces to
`overallFloat`. -/
lemma calculate_overall_score_num (val : ValidationResult)
    (qual : QualityAssessment) (n : Int) (hs : qual.score = .num n) :
    calculate_overall_score val qual =
      .ok (overallFloat (if val.is_valid then 100 else 0) n) := by
  simp [calculate_overall_score, hs, scoreToDy, overallFloat]

/-- C1, counterexample: at `is_valid = false`, `score = 90` the source
computes `int(0 * 0.3 + 90 * 0.7) = 62` in binary64 arithmetic, while the
claimed formula `floor(0.3 * 0 + 0.7 * 90)` yields `63`. -/
theorem C1_counterexample :
    calculate_overall_score (validate_structure (some []))
        ⟨.num 90, [], .str [], .arr []⟩ = .ok 62 ∧
    overall_score_spec false 90 = 63 ∧ ¬((62 : Int) = 63) :=
  ⟨rfl, by decide, by decide⟩

/-- C1 (amended): for every score in the declared range `[0, 100]`, the
overall score equals `floor(0.3 * (100 if is_valid else 0) + 0.7 * score)`
except at `(is_valid = false, score = 90)`, where binary64 rounding gives
`62` instead of `63`; the concrete examples `(true, 80) = 86` and
`(false, 100) = 70` hold. -/
theorem C1_overall_score_formula :
    (∀ (val : ValidationResult) (qual : QualityAssessment) (n : Nat),
      n ≤ 100 → qual.score = .num (n : Int) →
      calculate_overall_score val qual =
        .ok (if val.is_valid = false ∧ n = 90 then 62
             else overall_score_spec val.is_valid (n : Int))) ∧
    calculate_overall_score (validate_structure none)
        ⟨.num 80, [], .str [], .arr []⟩ = .ok 86 ∧
    calculate_overall_score (validate_structure (some []))
        ⟨.num 100, [], .str [], .arr []⟩ = .ok 70 := by
  refine ⟨?_, rfl, rfl⟩
  intro val qual n hn hs
  rw [calculate_overall_score_num val qual (n : Int) hs]
  rw [overallFloat_eq_on_range n (by omega) val.is_valid]
  rw [overall_score_spec_eq]

/-- C1, witness: the amended formula instantiated at
`is_valid = true`, `score = 80`. -/
theorem C1_witness :
    calculate_overall_score (validate_structure none)
        ⟨.num 80, [], .str [], .arr []⟩ =
      .ok (if (validate_structure none).is_valid = false ∧ 80 = 90 then 62
           else overall_score_spec (validate_structure none).is_valid 80) :=
  C1_overall_score_formula.1 (validate_structure none)
    ⟨.num 80, [], .str [], .arr []⟩ 80 (by decide) rfl

/-- C2: when structure validation fails, `check_response` skips the
backend entirely (zero calls) and returns the synthetic report with
`overall_score = 0`, `quality.score = 0` and exactly one critical issue
about structure validation failure. -/
theorem C2_invalid_structure_short_circuit :
    ∀ (msg : List Char) (backend : Nat → Except (List Char) (List Char)),
      check_response (some msg) backend =
        .ok (⟨⟨false, [(("Schema validation failed: ").toList) ++ msg], []⟩,
              invalidStructureFallback, 0⟩, 0) ∧
      invalidStructureFallback.score = .num 0 ∧
      invalidStructureFallback.issues =
        [⟨.str (("critical").toList),
          .str (("Structure validation failed").toList), .null⟩] ∧
      invalidStructureFallback.issues.length = 1 := by
  intro msg backend
  exact ⟨rfl, rfl, rfl, rfl⟩

/-- C4: whenever the backend call raises, `assess_quality` returns the
score-0 fallback with exactly one critical issue whose description
extends the error message, the fixed explanation, and one
recommendation, after exactly one attempt. -/
theorem C4_backend_failure_fallback :
    ∀ (backend : Nat → Except (List Char) (List Char)) (e : List Char),
      backend 0 = .error e →
      assess_quality backend = (fallback0 e, 1) ∧
      (fallback0 e).score = .num 0 ∧
      (fallback0 e).issues =
        [⟨.str (("critical").toList),
          .str ((("Assessment failed: ").toList) ++ e), .null⟩] ∧
      (fallback0 e).issues.length = 1 ∧
      (fallback0 e).explanation =
        .str (("Unable to complete quality assessment").toList) ∧
      (fallback0 e).recommendations =
        .arr [.str (("Verify API connectivity and try again").toList)] := by
  intro backend e h
  refine ⟨?_, rfl, rfl, rfl, rfl, rfl⟩
  unfold assess_quality
  rw [h]

/-- C4, witness: a backend that raises with message "boom". -/
theorem C4_witness :
    assess_quality (fun _ => .error (("boom").toList)) =
      (fallback0 (("boom").toList), 1) :=
  (C4_backend_failure_fallback (fun _ => .error (("boom").toList))
    (("boom").toList) rfl).1

/-- C6, counterexample: a backend reply with score 150 passes through
unclamped and produces `overall_score = 135`, outside `[0, 100]`. -/
theorem C6_counterexample :
    check_response none
        (fun _ => .ok (("\x7b\"score\": 150, \"explanation\": \"ok\"\x7d").toList)) =
      .ok (⟨⟨true, [], []⟩, ⟨.num 150, [], .str (("ok").toList), .arr []⟩, 135⟩, 1) ∧
    ¬((135 : Int) ≤ 100) :=
  ⟨rfl, by decide⟩

/-- C6 (amended): the three synthesized fallback assessments carry
scores 0 or 50, inside the declared range, and every report whose
quality score lies in `[0, 100]` has `overall_score` in `[0, 100]`;
an out-of-range backend-supplied score propagates unclamped. -/
theorem C6_score_ranges :
    (∀ (outcome : Option (List Char))
       (backend : Nat → Except (List Char) (List Char))
       (rep : QualityReport) (calls : Nat) (n : Nat),
      check_response outcome backend = .ok (rep, calls) →
      rep.quality.score = .num (n : Int) → n ≤ 100 →
      0 ≤ rep.overall_score ∧ rep.overall_score ≤ 100) ∧
    invalidStructureFallback.score = .num 0 ∧
    (∀ d, (fallback50 d).score = .num 50) ∧
    (∀ e, (fallback0 e).score = .num 0) := by
  refine ⟨?_, rfl, fun d => rfl, fun e => rfl⟩
  intro outcome backend rep calls n h hs hn
  simp only [check_response] at h
  cases hcalc : calculate_overall_score (validate_structure outcome)
      (if (validate_structure outcome).is_valid then assess_quality backend
       else (invalidStructureFallback, 0)).1 with
  | error e => rw [hcalc] at h; exact Except.noConfusion h
  | ok overall =>
    rw [hcalc] at h
    rw [Except.ok.injEq, Prod.mk.injEq] at h
    obtain ⟨hrep, _⟩ := h
    subst hrep
    simp only at hs
    rw [calculate_overall_score_num _ _ (n : Int) hs] at hcalc
    rw [Except.ok.injEq] at hcalc
    subst hcalc
    exact overallFloat_mem_range n (by omega) (validate_structure outcome).is_valid

/-- C6, witness: the invalid-structure report has its overall score in
range. -/
theorem C6_witness :
    0 ≤ (QualityReport.mk (validate_structure (some []))
          invalidStructureFallback 0).overall_score ∧
    (QualityReport.mk (validate_structure (some []))
          invalidStructureFallback 0).overall_score ≤ 100 :=
  C6_score_ranges.1 (some []) (fun _ => .ok []) _ 0 0 rfl rfl (by decide)

/-- C7: `validate_structure` returns `is_valid` true exactly when the
error list is empty; success yields no errors and no warnings, and a
validator violation yields exactly one error and no warnings. -/
theorem C7_validation_invariants :
    ∀ outcome : Option (List Char),
      ((validate_structure outcome).is_valid = true ↔
        (validate_structure outcome).errors = []) ∧
      (outcome = none → validate_structure outcome = ⟨true, [], []⟩) ∧
      (∀ msg, outcome = some msg →
        (validate_structure outcome).is_valid = false ∧
        (validate_structure outcome).errors =
          [(("Schema validation failed: ").toList) ++ msg] ∧
        (validate_structure outcome).errors.length = 1 ∧
        (validate_structure outcome).warnings = []) := by
  intro outcome
  cases outcome <;> simp [validate_structure]

/-- C7, witness: the invariants at a concrete failing outcome. -/
theorem C7_witness :
    (validate_structure (some (("x").toList))).is_valid = false ∧
    (validate_structure (some (("x").toList))).errors =
      [(("Schema validation failed: ").toList) ++ ("x").toList] ∧
    (validate_structure (some (("x").toList))).errors.length = 1 ∧
    (validate_structure (some (("x").toList))).warnings = [] :=
  (C7_validation_invariants (some (("x").toList))).2.2 (("x").toList) rfl

/-- C8: `check_consistency` raises `NotImplementedError` on every input
and never returns an assessment. -/
theorem C8_consistency_not_implemented :
    ∀ (responses : List Json) (schema : Json),
      check_consistency responses schema =
        .error (.notImplementedError
          (("Batch consistency checking coming soon").toList)) ∧
      ∀ qa : QualityAssessment, ¬(check_consistency responses schema = .ok qa) := by
  intro responses schema
  exact ⟨rfl, fun qa h => Except.noConfusion h⟩

/-- C8, witness: the not-implemented signal at a concrete non-empty
input. -/
theorem C8_witness :
    check_consistency [Json.null] Json.null =
      .error (.notImplementedError
        (("Batch consistency checking coming soon").toList)) :=
  (C8_consistency_not_implemented [Json.null] Json.null).1

/-- C9: construction fails with `ValueError` when neither the argument
nor the environment supplies a credential, and succeeds exactly when a
non-empty key is supplied by either source, so misconfiguration is
caught at construction time. -/
theorem C9_init_requires_credential :
    checker_init none none =
      .error (.valueError
        (("ANTHROPIC_API_KEY must be set in environment or passed to constructor").toList)) ∧
    (∀ (api_key env_key : Option (List Char)),
      (∃ c, checker_init api_key env_key = .ok c) ↔
        ((∃ k, api_key = some k ∧ k ≠ []) ∨ (∃ k, env_key = some k ∧ k ≠ []))) := by
  refine ⟨rfl, ?_⟩
  intro api_key env_key
  cases api_key with
  | none =>
    cases env_key with
    | none => simp [checker_init]
    | some k =>
      by_cases hk : k = [] <;> simp [checker_init, hk]
  | some k =>
    by_cases hk : k = []
    · subst hk
      cases env_key with
      | none => simp [checker_init]
      | some k2 =>
        by_cases hk2 : k2 = [] <;> simp [checker_init, hk2]
    · simp [checker_init, hk]

/-- C9, witness: a non-empty constructor argument yields a built
checker. -/
theorem C9_witness :
    ∃ c, checker_init (some (("k").toList)) none = .ok c :=
  (C9_init_requires_credential.2 (some (("k").toList)) none).mpr
    (.inl ⟨("k").toList, rfl, by decide⟩)

/-- JSON-object test (the dict shape on which Python string subscripting
succeeds). -/
def isObjJson (j : Json) : Bool :=
  match j with
  | .obj _ => true
  | _ => false

/-- The shapes of an `issues` member on which the comprehension of
`_parse_assessment` cannot raise an uncaught exception. -/
def issuesShapeOK (j : Json) : Bool :=
  match j with
  | .arr xs => xs.all isObjJson
  | .obj [] => true
  | .str [] => true
  | _ => false

/-- Inputs on which the `try` body of `_parse_assessment` raises nothing
outside the caught `JSONDecodeError` and `KeyError`: the preprocessed
text fails to parse, or parses to a JSON object whose `issues` member
(defaulted to the empty list) has a safe shape. -/
def parseSafe (t : List Char) : Bool :=
  match json_loads (preprocess t) with
  | none => true
  | some (.obj kvs) =>
    issuesShapeOK ((lookupMem kvs (("issues").toList)).getD (.arr []))
  | some _ => false

/-- On a JSON object, one issue entry yields an issue or a `KeyError`. -/
lemma parseIssue_shape (j : Json) (hj : isObjJson j = true) :
    (∃ i, parseIssue j = .ok i) ∨ (∃ k, parseIssue j = .error (.keyError k)) := by
  cases j with
  | obj kvs =>
    cases hsev : lookupMem kvs (("severity").toList) with
    | none => exact .inr ⟨(("severity").toList), by simp only [parseIssue]; rw [hsev]⟩
    | some sev =>
      cases hdesc : lookupMem kvs (("description").toList) with
      | none => exact .inr ⟨(("description").toList), by simp only [parseIssue]; rw [hsev, hdesc]⟩
      | some desc =>
        exact .inl ⟨⟨sev, desc, (lookupMem kvs (("field").toList)).getD .null⟩,
          by simp only [parseIssue]; rw [hsev, hdesc]⟩
  | null => exact absurd hj (by simp [isObjJson])
  | bool b => exact absurd hj (by simp [isObjJson])
  | num n => exact absurd hj (by simp [isObjJson])
  | str s => exact absurd hj (by simp [isObjJson])
  | arr xs => exact absurd hj (by simp [isObjJson])

/-- On a list of JSON objects, the issue comprehension yields a list or
a `KeyError`. -/
lemma parseIssueList_shape : ∀ xs : List Json, xs.all isObjJson = true →
    (∃ l, parseIssueList xs = .ok l) ∨
      (∃ k, parseIssueList xs = .error (.keyError k)) := by
  intro xs
  induction xs with
  | nil => intro _; exact .inl ⟨[], rfl⟩
  | cons j js ih =>
    intro hall
    rw [List.all_cons, Bool.and_eq_true] at hall
    cases parseIssue_shape j hall.1 with
    | inl hok =>
      obtain ⟨i, hi⟩ := hok
      cases ih hall.2 with
      | inl hl =>
        obtain ⟨l, hl⟩ := hl
        exact .inl ⟨i :: l, by unfold parseIssueList; rw [hi, hl]⟩
      | inr hk =>
        obtain ⟨k, hk⟩ := hk
        exact .inr ⟨k, by unfold parseIssueList; rw [hi, hk]⟩
    | inr hk =>
      obtain ⟨k, hk⟩ := hk
      exact .inr ⟨k, by unfold parseIssueList; rw [hk]⟩

/-- On a safe `issues` shape, `parseIssues` yields a list or a
`KeyError`. -/
lemma parseIssues_shape (j : Json) (hj : issuesShapeOK j = true) :
    (∃ l, parseIssues j = .ok l) ∨
      (∃ k, parseIssues j = .error (.keyError k)) := by
  cases j with
  | arr xs => exact parseIssueList_shape xs hj
  | obj kvs =>
    cases kvs with
    | nil => exact .inl ⟨[], rfl⟩
    | cons kv rest => exact absurd hj (by simp [issuesShapeOK])
  | str s =>
    cases s with
    | nil => exact .inl ⟨[], rfl⟩
    | cons c rest => exact absurd hj (by simp [issuesShapeOK])
  | null => exact absurd hj (by simp [issuesShapeOK])
  | bool b => exact absurd hj (by simp [issuesShapeOK])
  | num n => exact absurd hj (by simp [issuesShapeOK])

/-- On a JSON object with a safe `issues` member, the `try` body of
`_parse_assessment` yields an assessment or a `KeyError`. -/
lemma assessFromJson_shape (kvs : List (List Char × Json))
    (hs : issuesShapeOK ((lookupMem kvs (("issues").toList)).getD (.arr [])) = true) :
    (∃ qa, assessFromJson (.obj kvs) = .ok qa) ∨
      (∃ k, assessFromJson (.obj kvs) = .error (.keyError k)) := by
  cases parseIssues_shape _ hs with
  | inr hk =>
    obtain ⟨k, hk⟩ := hk
    exact .inr ⟨k, by simp only [assessFromJson]; rw [hk]⟩
  | inl hl =>
    obtain ⟨l, hl⟩ := hl
    cases hsc : lookupMem kvs (("score").toList) with
    | none => exact .inr ⟨(("score").toList), by simp only [assessFromJson]; rw [hl, hsc]⟩
    | some score =>
      cases hex : lookupMem kvs (("explanation").toList) with
      | none => exact .inr ⟨(("explanation").toList), by simp only [assessFromJson]; rw [hl, hsc, hex]⟩
      | some explanation =>
        exact .inl ⟨⟨score, l, explanation,
            (lookupMem kvs (("recommendations").toList)).getD (.arr [])⟩,
          by simp only [assessFromJson]; rw [hl, hsc, hex]⟩

/-- `parseStage` when `json.loads` fails. -/
lemma parseStage_loads_none {t : List Char} (hj : json_loads t = none) :
    parseStage t = .ok (fallback50 jsonDecodeDetail) := by
  unfold parseStage
  rw [hj]

/-- `parseStage` when `json.loads` succeeds. -/
lemma parseStage_loads_some {t : List Char} {data : Json}
    (hj : json_loads t = some data) :
    parseStage t =
      (match assessFromJson data with
       | .ok qa => .ok qa
       | .error (.keyError k) => .ok (fallback50 (keyErrStr k))
       | .error e => .error e) := by
  unfold parseStage
  rw [hj]

/-- `_parse_assessment` factors through `parseStage` on the preprocessed
text. -/
lemma parse_assessment_eq (t : List Char) :
    parse_assessment t = parseStage (preprocess t) := rfl

/-- C3, counterexample: on the reply "[]" (valid JSON, not an object),
`data.get('issues', [])` raises an uncaught `AttributeError`, so
`_parse_assessment` raises to its caller instead of returning an
assessment. -/
theorem C3_counterexample :
    parse_assessment (("[]").toList) = .error PyErr.attributeError := rfl

/-- C3 (amended): on every input whose preprocessed text fails to parse
as JSON or parses to a JSON object with a safely-shaped `issues` member,
`_parse_assessment` returns a `QualityAssessment` without raising; a
JSON parse failure yields the score-50 fallback, and a missing required
key (`score`, `explanation`, or a per-issue `severity`/`description`)
yields the score-50 fallback naming that key; every such fallback has
exactly one warning issue describing the parse failure, the fixed
explanation, and exactly one recommendation.  (On other inputs an
uncaught `AttributeError` or `TypeError` propagates.) -/
theorem C3_parser_fallback :
    (∀ t, parseSafe t = true → ∃ qa, parse_assessment t = .ok qa) ∧
    (∀ t, json_loads (preprocess t) = none →
      parse_assessment t = .ok (fallback50 jsonDecodeDetail)) ∧
    (∀ t data k, json_loads (preprocess t) = some data →
      assessFromJson data = .error (.keyError k) →
      parse_assessment t = .ok (fallback50 (keyErrStr k))) ∧
    (∀ d, (fallback50 d).score = .num 50 ∧
      (fallback50 d).issues.length = 1 ∧
      (∀ i ∈ (fallback50 d).issues,
        i.severity = .str (("warning").toList) ∧
        i.description = .str ((("Could not parse assessment: ").toList) ++ d)) ∧
      (fallback50 d).explanation =
        .str (("Assessment completed but response format was unexpected").toList) ∧
      (fallback50 d).recommendations =
        .arr [.str (("Review raw assessment output").toList)]) := by
  refine ⟨?_, ?_, ?_, ?_⟩
  · intro t h
    unfold parseSafe at h
    cases hj : json_loads (preprocess t) with
    | none => exact ⟨fallback50 jsonDecodeDetail, by rw [parse_assessment_eq, parseStage_loads_none hj]⟩
    | some data =>
      rw [hj] at h
      cases data with
      | obj kvs =>
        cases assessFromJson_shape kvs h with
        | inl hok =>
          obtain ⟨qa, hqa⟩ := hok
          exact ⟨qa, by rw [parse_assessment_eq, parseStage_loads_some hj, hqa]⟩
        | inr hk =>
          obtain ⟨k, hk⟩ := hk
          exact ⟨fallback50 (keyErrStr k), by rw [parse_assessment_eq, parseStage_loads_some hj, hk]⟩
      | null => exact absurd h (by simp)
      | bool b => exact absurd h (by simp)
      | num n => exact absurd h (by simp)
      | str s => exact absurd h (by simp)
      | arr xs => exact absurd h (by simp)
  · intro t hj
    rw [parse_assessment_eq, parseStage_loads_none hj]
  · intro t data k hj hk
    rw [parse_assessment_eq, parseStage_loads_some hj, hk]
  · intro d
    refine ⟨rfl, rfl, ?_, rfl, rfl⟩
    intro i hi
    simp only [fallback50] at hi
    rw [List.mem_singleton] at hi
    subst hi
    exact ⟨rfl, rfl⟩

/-- C3, witness: a non-JSON reply lands in the score-50 fallback. -/
theorem C3_witness :
    parse_assessment (("hello").toList) = .ok (fallback50 jsonDecodeDetail) :=
  C3_parser_fallback.2.1 (("hello").toList) rfl

/-- Splitting at the newline that follows a newline-free chunk. -/
lemma splitNl_chunk : ∀ (xs rest : List Char), (∀ c ∈ xs, ¬(c = '\n')) →
    splitNl (xs ++ '\n' :: rest) = xs :: splitNl rest := by
  intro xs
  induction xs with
  | nil => intro rest _; simp [splitNl]
  | cons x xs ih =>
    intro rest h
    have hx : ¬(x = '\n') := h x (List.mem_cons_self x xs)
    have hxs : ∀ c ∈ xs, ¬(c = '\n') := fun c hc => h c (List.mem_cons_of_mem x hc)
    rw [List.cons_append]
    simp only [splitNl]
    rw [if_neg hx, ih rest hxs]

/-- Splitting a newline-free text yields a single line. -/
lemma splitNl_single : ∀ xs : List Char, (∀ c ∈ xs, ¬(c = '\n')) →
    splitNl xs = [xs] := by
  intro xs
  induction xs with
  | nil => intro _; rfl
  | cons x xs ih =>
    intro h
    simp only [splitNl]
    rw [if_neg (h x (List.mem_cons_self x xs)),
      ih (fun c hc => h c (List.mem_cons_of_mem x hc))]

/-- `lstrip` is the identity on text starting with a non-space. -/
lemma lstrip_cons_of_nonspace {c : Char} {l : List Char}
    (h : isPySpace c = false) : lstrip (c :: l) = c :: l := by
  unfold lstrip
  rw [List.dropWhile_cons, h]
  simp

/-- `pyStrip` is the identity on text with non-space first and last
characters. -/
lemma pyStrip_eq_self {l : List Char}
    (h1 : ∃ c t, l = c :: t ∧ isPySpace c = false)
    (h2 : ∃ c t, l.reverse = c :: t ∧ isPySpace c = false) :
    pyStrip l = l := by
  obtain ⟨c, t, hct, hc⟩ := h1
  obtain ⟨c2, t2, hct2, hc2⟩ := h2
  unfold pyStrip
  rw [hct2, lstrip_cons_of_nonspace hc2, ← hct2, List.reverse_reverse,
    hct, lstrip_cons_of_nonspace hc, ← hct]

/-- The JSON object reply used by the fence-stripping scenario. -/
def fenceBody : List Char := ("\x7b\"score\": 90, \"explanation\": \"ok\"\x7d").toList

/-- C5: for every newline-free language tag, a properly fenced reply
whose interior is the object with score 90 and explanation "ok" parses
to score 90 with empty issues and recommendations; the fence markers
neither appear in the result nor cause a parse error. -/
theorem C5_fence_stripping :
    ∀ tag : List Char, '\n' ∉ tag →
      parse_assessment ((("```").toList ++ tag) ++
          ('\n' :: fenceBody ++ '\n' :: ("```").toList)) =
        .ok ⟨.num 90, [], .str (("ok").toList), .arr []⟩ := by
  intro tag htag
  have htag2 : ∀ c ∈ tag, ¬(c = '\n') := fun c hc hceq => htag (hceq ▸ hc)
  have hticks3 : ("```").toList = btick :: btick :: btick :: [] := by decide
  have hrevt : (("```").toList).reverse = btick :: btick :: btick :: [] := by decide
  have hsp : isPySpace btick = false := by decide
  have hl1 : (("```").toList ++ tag) ++ ('\n' :: fenceBody ++ '\n' :: ("```").toList) =
      btick :: (btick :: btick ::
        (tag ++ ('\n' :: fenceBody ++ '\n' :: ("```").toList))) := by
    rw [hticks3]
    simp
  have hl2 : (("```").toList ++ tag) ++ ('\n' :: fenceBody ++ '\n' :: ("```").toList) =
      ((("```").toList ++ tag) ++ ('\n' :: fenceBody ++ ['\n'])) ++ ("```").toList := by
    simp
  have hrev : ((("```").toList ++ tag) ++
      ('\n' :: fenceBody ++ '\n' :: ("```").toList)).reverse =
      btick :: (btick :: btick ::
        (((("```").toList ++ tag) ++ ('\n' :: fenceBody ++ ['\n'])).reverse)) := by
    rw [hl2, List.reverse_append, hrevt]
    simp
  have hstrip : pyStrip ((("```").toList ++ tag) ++
      ('\n' :: fenceBody ++ '\n' :: ("```").toList)) =
      (("```").toList ++ tag) ++ ('\n' :: fenceBody ++ '\n' :: ("```").toList) :=
    pyStrip_eq_self ⟨btick, _, hl1, hsp⟩ ⟨btick, _, hrev, hsp⟩
  have hstart : startsTicks ((("```").toList ++ tag) ++
      ('\n' :: fenceBody ++ '\n' :: ("```").toList)) = true := by
    unfold startsTicks
    rw [hticks3]
    simp [List.isPrefixOf]
  have hA : ∀ c ∈ ("```").toList ++ tag, ¬(c = '\n') := by
    intro c hc
    cases List.mem_append.mp hc with
    | inl h => exact (by decide : ∀ c ∈ ("```").toList, ¬(c = '\n')) c h
    | inr h => exact htag2 c h
  have hfb : ∀ c ∈ fenceBody, ¬(c = '\n') := by decide
  have hsplit : splitNl ((("```").toList ++ tag) ++
      ('\n' :: fenceBody ++ '\n' :: ("```").toList)) =
      [("```").toList ++ tag, fenceBody, ("```").toList] := by
    rw [List.cons_append, splitNl_chunk _ _ hA, splitNl_chunk _ _ hfb,
      splitNl_single _ (by decide)]
  have hpre : preprocess ((("```").toList ++ tag) ++
      ('\n' :: fenceBody ++ '\n' :: ("```").toList)) = fenceBody := by
    unfold preprocess
    rw [hstrip, hstart, if_pos rfl, hsplit]
    rfl
  rw [parse_assessment_eq, hpre]
  rfl

/-- C5, witness: the fence with the language tag "json". -/
theorem C5_witness :
    parse_assessment ((("```").toList ++ ("json").toList) ++
        ('\n' :: fenceBody ++ '\n' :: ("```").toList)) =
      .ok ⟨.num 90, [], .str (("ok").toList), .arr []⟩ :=
  C5_fence_stripping (("json").toList) (by decide)

/-- C10: whenever the stripped text starts with a triple-backtick
marker, `_parse_assessment` drops the first and the last line
unconditionally before parsing; on the two-line input whose second line
is the valid score-90 object but which has no closing fence, everything
is removed, and the result is the score-50 parse-failure fallback rather
than a score-90 assessment. -/
theorem C10_fence_strip_unconditional :
    (∀ t : List Char, startsTicks (pyStrip t) = true →
      parse_assessment t =
        parseStage (joinNl (((splitNl (pyStrip t)).drop 1).dropLast))) ∧
    joinNl (((splitNl (pyStrip
        (("```json\n\x7b\"score\": 90, \"explanation\": \"ok\"\x7d").toList))).drop 1).dropLast) = [] ∧
    parse_assessment (("```json\n\x7b\"score\": 90, \"explanation\": \"ok\"\x7d").toList) =
      .ok (fallback50 jsonDecodeDetail) ∧
    (fallback50 jsonDecodeDetail).score = .num 50 ∧
    (fallback50 jsonDecodeDetail).issues.length = 1 ∧
    ¬(parse_assessment (("```json\n\x7b\"score\": 90, \"explanation\": \"ok\"\x7d").toList) =
        .ok ⟨.num 90, [], .str (("ok").toList), .arr []⟩) := by
  refine ⟨?_, rfl, rfl, rfl, rfl, ?_⟩
  · intro t h
    rw [parse_assessment_eq]
    unfold preprocess
    rw [h, if_pos rfl]
  · intro hcontra
    have : parse_assessment (("```json\n\x7b\"score\": 90, \"explanation\": \"ok\"\x7d").toList) =
        .ok (fallback50 jsonDecodeDetail) := rfl
    rw [this] at hcontra
    simp [fallback50, jsonDecodeDetail] at hcontra

/-- C10, witness: the fence-stripping equation instantiated at the
closing-fence-free two-line input. -/
theorem C10_witness :
    parse_assessment (("```json\n\x7b\"score\": 90, \"explanation\": \"ok\"\x7d").toList) =
      parseStage (joinNl (((splitNl (pyStrip
        (("```json\n\x7b\"score\": 90, \"explanation\": \"ok\"\x7d").toList))).drop 1).dropLast)) :=
  C10_fence_strip_unconditional.1
    (("```json\n\x7b\"score\": 90, \"explanation\": \"ok\"\x7d").toList) rfl
